import Mathlib

/-!
Shallow embedding of `src/simple/simple_example.py` (AdHawk BLE SDK example).

The script defines a class `FrontendData` whose methods are callbacks of an
external SDK.  We embed each callback as a pure function:

* `_handle_et_data` reads and writes one piece of adapter state, the scalar
  `self._last_console_print`; we pass that state explicitly and return the
  new state together with the list of printed lines.
* console output is modelled as a trace of `Line` values, one per `print`
  call; `Line.render` produces the exact f-string the Python code prints,
  with `{v:.2f}` modelled by `fmt2` (round-half-even to 2 decimals, the
  idealisation of Python float formatting over exact rationals).
* `_handle_events` accesses `args[0]`, which raises `IndexError` on an empty
  argument tuple, so it returns `Except PyExc`.
* `_handle_tracker_connect` issues SDK configuration calls; we record them
  as a list of `ApiCall` values.

The vendor module `adhawkapi` is not part of this repository; its enums
(`EyeMask`, `Events`, `EyeTrackingStreamTypes`, `EventControlBit`) are
modelled with the members the script mentions, plus a catch-all member for
the unrecognized values where the script's behaviour depends on one.
-/

/-- Python exceptions relevant to this script. -/
inductive PyExc
  | IndexError
  | KeyboardInterrupt
  | SystemExit
  | OtherExc
deriving DecidableEq, Repr

/-- `adhawkapi.EyeMask`: the script only compares against `BINOCULAR`;
all other enum members are collapsed into `NOT_BINOCULAR`. -/
inductive EyeMask
  | BINOCULAR
  | NOT_BINOCULAR
deriving DecidableEq, Repr

/-- `adhawkapi.Events`: the three members the script dispatches on, plus a
catch-all for every other event type. -/
inductive Events
  | BLINK
  | EYE_CLOSED
  | EYE_OPENED
  | OTHER
deriving DecidableEq, Repr

/-- `adhawkapi.EyeTrackingStreamTypes` members used by the script. -/
inductive EyeTrackingStreamTypes
  | GAZE
  | EYE_CENTER
  | PUPIL_DIAMETER
  | IMU_QUATERNION
deriving DecidableEq, Repr

/-- `adhawkapi.EventControlBit` members used by the script. -/
inductive EventControlBit
  | BLINK
  | EYE_CLOSE_OPEN
deriving DecidableEq, Repr

/-- The completion callbacks the script passes: always `lambda *args: None`,
i.e. a callback that ignores its arguments and does nothing. -/
inductive Callback
  | ignore_args
deriving DecidableEq, Repr

/-- `adhawkapi.EyeTrackingStreamData`: the telemetry record consumed by
`_handle_et_data`.  Optional fields are `Option`; numeric components are
exact rationals (idealised floats). -/
structure EyeTrackingStreamData where
  timestamp : ℚ
  gaze : Option (ℚ × ℚ × ℚ × ℚ)
  eye_center : Option (ℚ × ℚ × ℚ × ℚ × ℚ × ℚ)
  pupil_diameter : Option (ℚ × ℚ)
  imu_quaternion : Option (ℚ × ℚ × ℚ × ℚ)
  eye_mask : EyeMask
deriving DecidableEq, Repr

/-- Round a rational to the nearest integer, ties to even
(the rounding mode of Python float formatting). -/
def roundHalfEven (q : ℚ) : ℤ :=
  let f := ⌊q⌋
  let r := q - f
  if r < 1/2 then f
  else if 1/2 < r then f + 1
  else if f % 2 = 0 then f else f + 1

/-- Render a natural number below 100 with two digits. -/
def twoDigits (n : ℕ) : String :=
  (if n < 10 then "0" else "") ++ toString n

/-- Model of Python `f'{q:.2f}'`: fixed-point with 2 decimal places. -/
def fmt2 (q : ℚ) : String :=
  if q < 0 then
    let n := roundHalfEven (-q * 100)
    "-" ++ toString (n / 100) ++ "." ++ twoDigits (n % 100).toNat
  else
    let n := roundHalfEven (q * 100)
    toString (n / 100) ++ "." ++ twoDigits (n % 100).toNat

/-- One console line, one constructor per `print` statement of the script.
The numeric constructors carry the raw components in the order they are
printed; `Line.render` applies the f-string formatting. -/
inductive Line
  | gaze (x y z v : ℚ)
  | eyeCenter (lx ly lz rx ry rz : ℚ)
  | pupil (l r : ℚ)
  | imu (x y z w : ℚ)
  | blink (timestamp duration : String)
  | eyeClose (timestamp eye_idx : String)
  | eyeOpen (timestamp eye_idx : String)
  | trackerConnected
  | trackerDisconnected
deriving DecidableEq, Repr

/-- The exact text printed for each `Line`, matching the script's f-strings. -/
def Line.render : Line → String
  | .gaze x y z v =>
      "Gaze=" ++ fmt2 x ++ ",y=" ++ fmt2 y ++ ",z=" ++ fmt2 z ++
        ",vergence=" ++ fmt2 v
  | .eyeCenter lx ly lz rx ry rz =>
      "Eye center: Left=(x=" ++ fmt2 lx ++ ",y=" ++ fmt2 ly ++ ",z=" ++ fmt2 lz ++
        ") Right=(x=" ++ fmt2 rx ++ ",y=" ++ fmt2 ry ++ ",z=" ++ fmt2 rz ++ ")"
  | .pupil l r =>
      "Pupil diameter: Left=" ++ fmt2 l ++ " Right=" ++ fmt2 r
  | .imu x y z w =>
      "IMU: x=" ++ fmt2 x ++ ",y=" ++ fmt2 y ++ ",z=" ++ fmt2 z ++ ",w=" ++ fmt2 w
  | .blink t d => "Got blink: " ++ t ++ " " ++ d
  | .eyeClose t i => "Eye Close: " ++ t ++ " " ++ i
  | .eyeOpen t i => "Eye Open: " ++ t ++ " " ++ i
  | .trackerConnected => "Tracker connected"
  | .trackerDisconnected => "Tracker disconnected"

/-- Lines produced by the `et_data.gaze` block of `_handle_et_data`:
`xvec, yvec, zvec, vergence = et_data.gaze`. -/
def gazeLines (g : Option (ℚ × ℚ × ℚ × ℚ)) : List Line :=
  match g with
  | some (xvec, yvec, zvec, vergence) => [Line.gaze xvec yvec zvec vergence]
  | none => []

/-- Lines produced by the `et_data.eye_center` block: the tuple is unpacked
as `rxvec, ryvec, rzvec, lxvec, lyvec, lzvec = et_data.eye_center`
(right eye first), printed only when `eye_mask == EyeMask.BINOCULAR`,
left eye first in the text. -/
def eyeCenterLines (mask : EyeMask) (ec : Option (ℚ × ℚ × ℚ × ℚ × ℚ × ℚ)) :
    List Line :=
  match ec with
  | some (rxvec, ryvec, rzvec, lxvec, lyvec, lzvec) =>
      if mask = EyeMask.BINOCULAR then
        [Line.eyeCenter lxvec lyvec lzvec rxvec ryvec rzvec]
      else []
  | none => []

/-- Lines produced by the `et_data.pupil_diameter` block: the pair is
unpacked as `rdiameter, ldiameter = et_data.pupil_diameter` (right first),
printed only when binocular, left first in the text. -/
def pupilLines (mask : EyeMask) (pd : Option (ℚ × ℚ)) : List Line :=
  match pd with
  | some (rdiameter, ldiameter) =>
      if mask = EyeMask.BINOCULAR then [Line.pupil ldiameter rdiameter] else []
  | none => []

/-- Lines produced by the `et_data.imu_quaternion` block:
`x, y, z, w = et_data.imu_quaternion`, printed only when binocular. -/
def imuLines (mask : EyeMask) (q : Option (ℚ × ℚ × ℚ × ℚ)) : List Line :=
  match q with
  | some (x, y, z, w) =>
      if mask = EyeMask.BINOCULAR then [Line.imu x y z w] else []
  | none => []

/-- `FrontendData._handle_et_data`, with `self._last_console_print` passed
explicitly.  Returns the new value of `_last_console_print` and the printed
lines.  Faithful to the script: records with
`timestamp < _last_console_print + 1` are discarded silently; otherwise the
timestamp is stored and each present (and, where applicable, binocular-gated)
field group is printed. -/
def handle_et_data (last_console_print : ℚ) (et_data : EyeTrackingStreamData) :
    ℚ × List Line :=
  if et_data.timestamp < last_console_print + 1 then
    (last_console_print, [])
  else
    (et_data.timestamp,
      gazeLines et_data.gaze ++
      eyeCenterLines et_data.eye_mask et_data.eye_center ++
      pupilLines et_data.eye_mask et_data.pupil_diameter ++
      imuLines et_data.eye_mask et_data.imu_quaternion)

/-- Python `args[i]`: raises `IndexError` when the index is out of range. -/
def getItem (args : List String) (i : ℕ) : Except PyExc String :=
  match args.get? i with
  | some v => Except.ok v
  | none => Except.error PyExc.IndexError

/-- `FrontendData._handle_events(event_type, timestamp, *args)`.
`timestamp` and the extra arguments are modelled by their rendered text
(the script only interpolates them into f-strings).  Three independent
`if` statements, each reading `args[0]`. -/
def handle_events (event_type : Events) (timestamp : String)
    (args : List String) : Except PyExc (List Line) := do
  let mut out : List Line := []
  if event_type = Events.BLINK then
    let duration ← getItem args 0
    out := out ++ [Line.blink timestamp duration]
  if event_type = Events.EYE_CLOSED then
    let eye_idx ← getItem args 0
    out := out ++ [Line.eyeClose timestamp eye_idx]
  if event_type = Events.EYE_OPENED then
    let eye_idx ← getItem args 0
    out := out ++ [Line.eyeOpen timestamp eye_idx]
  return out

/-- One configuration request issued to the SDK by `_handle_tracker_connect`. -/
inductive ApiCall
  | set_et_stream_rate (rate : ℕ) (callback : Callback)
  | set_et_stream_control (streams : List EyeTrackingStreamTypes)
      (enable : Bool) (callback : Callback)
  | set_event_control (bit : EventControlBit) (enable : ℕ) (callback : Callback)
deriving DecidableEq, Repr

/-- `FrontendData._handle_tracker_connect`: prints `Tracker connected` and
issues the four configuration calls, in program order, each with the
ignored `lambda *args: None` completion callback. -/
def handle_tracker_connect : List Line × List ApiCall :=
  ([Line.trackerConnected],
   [ApiCall.set_et_stream_rate 60 Callback.ignore_args,
    ApiCall.set_et_stream_control
      [EyeTrackingStreamTypes.GAZE,
       EyeTrackingStreamTypes.EYE_CENTER,
       EyeTrackingStreamTypes.PUPIL_DIAMETER,
       EyeTrackingStreamTypes.IMU_QUATERNION] true Callback.ignore_args,
    ApiCall.set_event_control EventControlBit.BLINK 1 Callback.ignore_args,
    ApiCall.set_event_control EventControlBit.EYE_CLOSE_OPEN 1
      Callback.ignore_args])

/-- `FrontendData._handle_tracker_disconnect`: prints `Tracker disconnected`
and resets `self._last_console_print` to `0`. -/
def handle_tracker_disconnect (_last_console_print : ℚ) : ℚ × List Line :=
  (0, [Line.trackerDisconnected])

/-- The `try`/`except` of `main` after `FrontendData` is constructed: the
foreground loop only sleeps and terminates when an exception is raised into
it after some number of iterations.  The result records how many times
`frontend.shutdown()` ran and whether `main` returned normally (exit code 0)
or the exception escaped.  `KeyboardInterrupt` and `SystemExit` are caught. -/
def mainAfterConstruct (_sleeps : ℕ) (exc : PyExc) : ℕ × Except PyExc Unit :=
  match exc with
  | PyExc.KeyboardInterrupt => (1, Except.ok ())
  | PyExc.SystemExit => (1, Except.ok ())
  | e => (0, Except.error e)

/-- Process exit code: 0 when `main` returns normally, nonzero when an
exception escapes. -/
def exitCodeOf : Except PyExc Unit → ℕ
  | Except.ok _ => 0
  | Except.error _ => 1

/-- Recognizer for `Gaze=` lines. -/
def Line.isGaze : Line → Bool
  | .gaze _ _ _ _ => true
  | _ => false

/-- Recognizer for `Eye center:` lines. -/
def Line.isEyeCenter : Line → Bool
  | .eyeCenter _ _ _ _ _ _ => true
  | _ => false

/-- Recognizer for `Pupil diameter:` lines. -/
def Line.isPupil : Line → Bool
  | .pupil _ _ => true
  | _ => false

/-- Recognizer for `IMU:` lines. -/
def Line.isImu : Line → Bool
  | .imu _ _ _ _ => true
  | _ => false

/-- Recognizer for `set_et_stream_rate` calls. -/
def ApiCall.isRateSet : ApiCall → Bool
  | .set_et_stream_rate _ _ => true
  | _ => false

/-- Recognizer for `set_et_stream_control` calls. -/
def ApiCall.isFieldEnable : ApiCall → Bool
  | .set_et_stream_control _ _ _ => true
  | _ => false

/-- Recognizer for `set_event_control` calls. -/
def ApiCall.isEventEnable : ApiCall → Bool
  | .set_event_control _ _ _ => true
  | _ => false

/-- The completion callback an `ApiCall` was passed. -/
def ApiCall.cb : ApiCall → Callback
  | .set_et_stream_rate _ c => c
  | .set_et_stream_control _ _ c => c
  | .set_event_control _ _ c => c

/-- Whether an `Except` result is a normal return. -/
def isOkE {α : Type} : Except PyExc α → Bool
  | Except.ok _ => true
  | Except.error _ => false

/-! ### Helper lemmas -/

theorem gazeLines_filter_of_none (p : Line → Bool) (g : Option (ℚ × ℚ × ℚ × ℚ))
    (h : ∀ x y z v, p (Line.gaze x y z v) = false) :
    (gazeLines g).filter p = [] := by
  cases g with
  | none => rfl
  | some t => obtain ⟨x, y, z, v⟩ := t; simp [gazeLines, h]

theorem eyeCenterLines_filter_of_none (p : Line → Bool) (m : EyeMask)
    (ec : Option (ℚ × ℚ × ℚ × ℚ × ℚ × ℚ))
    (h : ∀ a b c d e f, p (Line.eyeCenter a b c d e f) = false) :
    (eyeCenterLines m ec).filter p = [] := by
  cases ec with
  | none => rfl
  | some t =>
      obtain ⟨a, b, c, d, e, f⟩ := t
      by_cases hm : m = EyeMask.BINOCULAR <;> simp [eyeCenterLines, hm, h]

theorem pupilLines_filter_of_none (p : Line → Bool) (m : EyeMask)
    (pd : Option (ℚ × ℚ))
    (h : ∀ l r, p (Line.pupil l r) = false) :
    (pupilLines m pd).filter p = [] := by
  cases pd with
  | none => rfl
  | some t =>
      obtain ⟨l, r⟩ := t
      by_cases hm : m = EyeMask.BINOCULAR <;> simp [pupilLines, hm, h]

theorem imuLines_filter_of_none (p : Line → Bool) (m : EyeMask)
    (q : Option (ℚ × ℚ × ℚ × ℚ))
    (h : ∀ x y z w, p (Line.imu x y z w) = false) :
    (imuLines m q).filter p = [] := by
  cases q with
  | none => rfl
  | some t =>
      obtain ⟨x, y, z, w⟩ := t
      by_cases hm : m = EyeMask.BINOCULAR <;> simp [imuLines, hm, h]

theorem eyeCenterLines_of_not_binocular (m : EyeMask)
    (ec : Option (ℚ × ℚ × ℚ × ℚ × ℚ × ℚ)) (h : m ≠ EyeMask.BINOCULAR) :
    eyeCenterLines m ec = [] := by
  cases ec with
  | none => rfl
  | some t => obtain ⟨a, b, c, d, e, f⟩ := t; simp [eyeCenterLines, h]

theorem pupilLines_of_not_binocular (m : EyeMask) (pd : Option (ℚ × ℚ))
    (h : m ≠ EyeMask.BINOCULAR) : pupilLines m pd = [] := by
  cases pd with
  | none => rfl
  | some t => obtain ⟨l, r⟩ := t; simp [pupilLines, h]

theorem imuLines_of_not_binocular (m : EyeMask) (q : Option (ℚ × ℚ × ℚ × ℚ))
    (h : m ≠ EyeMask.BINOCULAR) : imuLines m q = [] := by
  cases q with
  | none => rfl
  | some t => obtain ⟨x, y, z, w⟩ := t; simp [imuLines, h]

theorem handle_et_data_of_pass (last : ℚ) (et : EyeTrackingStreamData)
    (h : last + 1 ≤ et.timestamp) :
    handle_et_data last et =
      (et.timestamp,
        gazeLines et.gaze ++
        eyeCenterLines et.eye_mask et.eye_center ++
        pupilLines et.eye_mask et.pupil_diameter ++
        imuLines et.eye_mask et.imu_quaternion) := by
  unfold handle_et_data
  rw [if_neg (not_lt.mpr h)]

theorem filter_isGaze_of_pass (last : ℚ) (et : EyeTrackingStreamData)
    (x y z v : ℚ) (hts : last + 1 ≤ et.timestamp)
    (hg : et.gaze = some (x, y, z, v)) :
    (handle_et_data last et).2.filter Line.isGaze = [Line.gaze x y z v] := by
  rw [handle_et_data_of_pass last et hts]
  simp only [List.filter_append]
  rw [hg,
    eyeCenterLines_filter_of_none Line.isGaze _ _ (fun _ _ _ _ _ _ => rfl),
    pupilLines_filter_of_none Line.isGaze _ _ (fun _ _ => rfl),
    imuLines_filter_of_none Line.isGaze _ _ (fun _ _ _ _ => rfl)]
  simp [gazeLines, Line.isGaze]

theorem filter_isEyeCenter_of_pass (last : ℚ) (et : EyeTrackingStreamData)
    (rx ry rz lx ly lz : ℚ) (hts : last + 1 ≤ et.timestamp)
    (hm : et.eye_mask = EyeMask.BINOCULAR)
    (hec : et.eye_center = some (rx, ry, rz, lx, ly, lz)) :
    (handle_et_data last et).2.filter Line.isEyeCenter
      = [Line.eyeCenter lx ly lz rx ry rz] := by
  rw [handle_et_data_of_pass last et hts]
  simp only [List.filter_append]
  rw [hec, hm,
    gazeLines_filter_of_none Line.isEyeCenter _ (fun _ _ _ _ => rfl),
    pupilLines_filter_of_none Line.isEyeCenter _ _ (fun _ _ => rfl),
    imuLines_filter_of_none Line.isEyeCenter _ _ (fun _ _ _ _ => rfl)]
  simp [eyeCenterLines, Line.isEyeCenter]

theorem filter_isPupil_of_pass (last : ℚ) (et : EyeTrackingStreamData)
    (rd ld : ℚ) (hts : last + 1 ≤ et.timestamp)
    (hm : et.eye_mask = EyeMask.BINOCULAR)
    (hpd : et.pupil_diameter = some (rd, ld)) :
    (handle_et_data last et).2.filter Line.isPupil = [Line.pupil ld rd] := by
  rw [handle_et_data_of_pass last et hts]
  simp only [List.filter_append]
  rw [hpd, hm,
    gazeLines_filter_of_none Line.isPupil _ (fun _ _ _ _ => rfl),
    eyeCenterLines_filter_of_none Line.isPupil _ _ (fun _ _ _ _ _ _ => rfl),
    imuLines_filter_of_none Line.isPupil _ _ (fun _ _ _ _ => rfl)]
  simp [pupilLines, Line.isPupil]

/-! ### Claims -/

/-- C1: every telemetry record with `timestamp < last_console_print + 1` is
discarded silently by `_handle_et_data`: no output, state unchanged,
whatever field groups are present. -/
theorem et_throttle_silent (last : ℚ) (et : EyeTrackingStreamData)
    (h : et.timestamp < last + 1) :
    handle_et_data last et = (last, []) := by
  unfold handle_et_data
  rw [if_pos h]

/-- Concrete record with every field group present and a timestamp inside
the throttle window. -/
def etW1 : EyeTrackingStreamData :=
  ⟨1/2, some (1/10, 2/10, 3/10, 4/10), some (1, 2, 3, 4, 5, 6),
    some (7, 8), some (1, 0, 0, 0), EyeMask.BINOCULAR⟩

theorem et_throttle_silent_witness :
    etW1.timestamp < 0 + 1 ∧ handle_et_data 0 etW1 = (0, []) :=
  ⟨by norm_num [etW1], et_throttle_silent 0 etW1 (by norm_num [etW1])⟩

/-- C2: a record that passes the throttle and carries a gaze tuple
`(x, y, z, vergence)` produces exactly one `Gaze=` line, whose text is the
four components each rendered to 2 decimal places. -/
theorem et_gaze_line (last : ℚ) (et : EyeTrackingStreamData) (x y z v : ℚ)
    (hts : last + 1 ≤ et.timestamp) (hg : et.gaze = some (x, y, z, v)) :
    (handle_et_data last et).2.filter Line.isGaze = [Line.gaze x y z v] ∧
    (Line.gaze x y z v).render =
      "Gaze=" ++ fmt2 x ++ ",y=" ++ fmt2 y ++ ",z=" ++ fmt2 z ++
        ",vergence=" ++ fmt2 v :=
  ⟨filter_isGaze_of_pass last et x y z v hts hg, rfl⟩

/-- Concrete record for the C2 witness: gaze `(0.1, 0.2, 0.3, 0.4)` at
timestamp 5. -/
def etW2 : EyeTrackingStreamData :=
  ⟨5, some (1/10, 2/10, 3/10, 4/10), none, none, none, EyeMask.NOT_BINOCULAR⟩

theorem et_gaze_line_witness :
    ((0 : ℚ) + 1 ≤ etW2.timestamp ∧
      etW2.gaze = some (1/10, 2/10, 3/10, 4/10)) ∧
    ((handle_et_data 0 etW2).2.filter Line.isGaze
        = [Line.gaze (1/10) (2/10) (3/10) (4/10)] ∧
      (Line.gaze (1/10) (2/10) (3/10) (4/10)).render =
        "Gaze=" ++ fmt2 (1/10) ++ ",y=" ++ fmt2 (2/10) ++ ",z=" ++
          fmt2 (3/10) ++ ",vergence=" ++ fmt2 (4/10)) :=
  ⟨⟨by norm_num [etW2], rfl⟩,
    et_gaze_line 0 etW2 (1/10) (2/10) (3/10) (4/10) (by norm_num [etW2]) rfl⟩

/-- Concrete record refuting C3's ordering: eye-center tuple
`(1, 2, 3, 4, 5, 6)` and pupil pair `(7, 8)`, binocular, past the
throttle. -/
def etC3 : EyeTrackingStreamData :=
  ⟨5, none, some (1, 2, 3, 4, 5, 6), some (7, 8), none, EyeMask.BINOCULAR⟩

/-- C3 counterexample: reading the eye-center tuple left-then-right
(`lx=1, ly=2, lz=3, rx=4, ry=5, rz=6`) and the pupil pair as
`(left=7, right=8)`, the claim predicts the lines
`Left=(1,2,3) Right=(4,5,6)` and `Left=7 Right=8`; the code instead unpacks
right-then-left and prints `Left=(4,5,6) Right=(1,2,3)` and
`Left=8 Right=7`. -/
theorem et_binocular_order_counterexample :
    (handle_et_data 0 etC3).2.filter Line.isEyeCenter
        = [Line.eyeCenter 4 5 6 1 2 3] ∧
    (handle_et_data 0 etC3).2.filter Line.isPupil = [Line.pupil 8 7] ∧
    ¬ ((handle_et_data 0 etC3).2.filter Line.isEyeCenter
        = [Line.eyeCenter 1 2 3 4 5 6]) ∧
    ¬ ((handle_et_data 0 etC3).2.filter Line.isPupil = [Line.pupil 7 8]) := by
  have h : (handle_et_data 0 etC3).2
      = [Line.eyeCenter 4 5 6 1 2 3, Line.pupil 8 7] := by
    rw [handle_et_data_of_pass 0 etC3 (by norm_num [etC3])]
    rfl
  refine ⟨?_, ?_, ?_, ?_⟩
  · rw [h]; rfl
  · rw [h]; rfl
  · rw [h]; norm_num [Line.isEyeCenter, Line.eyeCenter.injEq]
  · rw [h]; norm_num [Line.isPupil, Line.pupil.injEq]

/-- C3 amended: for a record passing the throttle with the binocular flag,
the eye-center tuple is ordered right-then-left `(rx, ry, rz, lx, ly, lz)`
and the printed line is `Eye center: Left=(x=lx,...) Right=(x=rx,...)`; the
pupil pair is ordered `(right, left)` and the printed line is
`Pupil diameter: Left=<left> Right=<right>`, every value to 2 decimals. -/
theorem et_binocular_lines (last : ℚ) (et : EyeTrackingStreamData)
    (rx ry rz lx ly lz rd ld : ℚ) (hts : last + 1 ≤ et.timestamp)
    (hm : et.eye_mask = EyeMask.BINOCULAR)
    (hec : et.eye_center = some (rx, ry, rz, lx, ly, lz))
    (hpd : et.pupil_diameter = some (rd, ld)) :
    (handle_et_data last et).2.filter Line.isEyeCenter
        = [Line.eyeCenter lx ly lz rx ry rz] ∧
    (handle_et_data last et).2.filter Line.isPupil = [Line.pupil ld rd] ∧
    (Line.eyeCenter lx ly lz rx ry rz).render =
      "Eye center: Left=(x=" ++ fmt2 lx ++ ",y=" ++ fmt2 ly ++ ",z=" ++
        fmt2 lz ++ ") Right=(x=" ++ fmt2 rx ++ ",y=" ++ fmt2 ry ++ ",z=" ++
        fmt2 rz ++ ")" ∧
    (Line.pupil ld rd).render =
      "Pupil diameter: Left=" ++ fmt2 ld ++ " Right=" ++ fmt2 rd :=
  ⟨filter_isEyeCenter_of_pass last et rx ry rz lx ly lz hts hm hec,
    filter_isPupil_of_pass last et rd ld hts hm hpd, rfl, rfl⟩

theorem et_binocular_lines_witness :
    ((0 : ℚ) + 1 ≤ etC3.timestamp ∧
      etC3.eye_mask = EyeMask.BINOCULAR ∧
      etC3.eye_center = some (1, 2, 3, 4, 5, 6) ∧
      etC3.pupil_diameter = some (7, 8)) ∧
    ((handle_et_data 0 etC3).2.filter Line.isEyeCenter
        = [Line.eyeCenter 4 5 6 1 2 3] ∧
      (handle_et_data 0 etC3).2.filter Line.isPupil = [Line.pupil 8 7] ∧
      (Line.eyeCenter 4 5 6 1 2 3).render =
        "Eye center: Left=(x=" ++ fmt2 4 ++ ",y=" ++ fmt2 5 ++ ",z=" ++
          fmt2 6 ++ ") Right=(x=" ++ fmt2 1 ++ ",y=" ++ fmt2 2 ++ ",z=" ++
          fmt2 3 ++ ")" ∧
      (Line.pupil 8 7).render =
        "Pupil diameter: Left=" ++ fmt2 8 ++ " Right=" ++ fmt2 7) :=
  ⟨⟨by norm_num [etC3], rfl, rfl, rfl⟩,
    et_binocular_lines 0 etC3 1 2 3 4 5 6 7 8 (by norm_num [etC3]) rfl rfl rfl⟩

/-- Concrete record refuting C4: timestamp `1/2` (earlier than the previous
print at 10) with gaze present. -/
def etC4 : EyeTrackingStreamData :=
  ⟨1/2, some (1/10, 2/10, 3/10, 4/10), none, none, none, EyeMask.BINOCULAR⟩

/-- C4 counterexample: the last print happened at timestamp 10, the tracker
disconnects (resetting `_last_console_print` to 0), and a record with
timestamp `1/2` — earlier than every previously printed timestamp — and a
present gaze field arrives: it is discarded with no output, because
`1/2 < 0 + 1`. -/
theorem disconnect_reset_counterexample :
    (handle_tracker_disconnect 10).1 = 0 ∧
    etC4.timestamp < 10 ∧
    etC4.gaze.isSome = true ∧
    handle_et_data (handle_tracker_disconnect 10).1 etC4
      = ((handle_tracker_disconnect 10).1, []) := by
  refine ⟨rfl, by norm_num [etC4], rfl, ?_⟩
  unfold handle_et_data
  rw [if_pos (by norm_num [etC4, handle_tracker_disconnect])]

/-- C4 amended: after `OnDisconnect` resets the throttle state to 0, a
record whose timestamp is at least 1 (one throttle unit past the reset
value 0) passes the throttle and produces the output of every one of its
present (and, where applicable, binocular-gated) field groups — even if its
timestamp is earlier than every previously printed timestamp. -/
theorem disconnect_resets_throttle (prev : ℚ) (et : EyeTrackingStreamData)
    (h1 : 1 ≤ et.timestamp) :
    handle_et_data (handle_tracker_disconnect prev).1 et =
      (et.timestamp,
        gazeLines et.gaze ++
        eyeCenterLines et.eye_mask et.eye_center ++
        pupilLines et.eye_mask et.pupil_diameter ++
        imuLines et.eye_mask et.imu_quaternion) := by
  have h0 : (handle_tracker_disconnect prev).1 = 0 := rfl
  rw [h0]
  exact handle_et_data_of_pass 0 et (by linarith)

/-- Concrete record for the C4 witness: timestamp 2, earlier than a previous
print at 10, with all four field groups present and the binocular flag
set. -/
def etW4 : EyeTrackingStreamData :=
  ⟨2, some (1/10, 2/10, 3/10, 4/10), some (1, 2, 3, 4, 5, 6), some (7, 8),
    some (1, 0, 0, 0), EyeMask.BINOCULAR⟩

theorem disconnect_resets_throttle_witness :
    ((1 : ℚ) ≤ etW4.timestamp ∧ etW4.timestamp < 10) ∧
    handle_et_data (handle_tracker_disconnect 10).1 etW4
      = (2, [Line.gaze (1/10) (2/10) (3/10) (4/10),
             Line.eyeCenter 4 5 6 1 2 3, Line.pupil 8 7,
             Line.imu 1 0 0 0]) :=
  ⟨⟨by norm_num [etW4], by norm_num [etW4]⟩,
    (disconnect_resets_throttle 10 etW4 (by norm_num [etW4])).trans (by rfl)⟩

/-- C5: `_handle_tracker_connect` issues exactly one rate-set call with the
value 60, exactly one field-enable call listing all four field groups,
exactly two event-enable calls (blink and eye-open/close), and every call
carries the ignored `lambda *args: None` completion callback. -/
theorem connect_config_calls :
    handle_tracker_connect.2.filter ApiCall.isRateSet
        = [ApiCall.set_et_stream_rate 60 Callback.ignore_args] ∧
    handle_tracker_connect.2.filter ApiCall.isFieldEnable
        = [ApiCall.set_et_stream_control
            [EyeTrackingStreamTypes.GAZE,
             EyeTrackingStreamTypes.EYE_CENTER,
             EyeTrackingStreamTypes.PUPIL_DIAMETER,
             EyeTrackingStreamTypes.IMU_QUATERNION] true
            Callback.ignore_args] ∧
    handle_tracker_connect.2.filter ApiCall.isEventEnable
        = [ApiCall.set_event_control EventControlBit.BLINK 1
             Callback.ignore_args,
           ApiCall.set_event_control EventControlBit.EYE_CLOSE_OPEN 1
             Callback.ignore_args] ∧
    ∀ c ∈ handle_tracker_connect.2, ApiCall.cb c = Callback.ignore_args := by
  refine ⟨rfl, rfl, rfl, ?_⟩
  decide

/-- C6: a record passing the throttle whose eye-center field is present but
whose mask is not `BINOCULAR` produces no `Eye center:` line, and likewise
no pupil-diameter and no IMU line. -/
theorem et_not_binocular_silent (last : ℚ) (et : EyeTrackingStreamData)
    (ec : ℚ × ℚ × ℚ × ℚ × ℚ × ℚ) (hts : last + 1 ≤ et.timestamp)
    (_hec : et.eye_center = some ec) (hm : et.eye_mask ≠ EyeMask.BINOCULAR) :
    (handle_et_data last et).2.filter Line.isEyeCenter = [] ∧
    (handle_et_data last et).2.filter Line.isPupil = [] ∧
    (handle_et_data last et).2.filter Line.isImu = [] := by
  rw [handle_et_data_of_pass last et hts,
    eyeCenterLines_of_not_binocular _ _ hm,
    pupilLines_of_not_binocular _ _ hm,
    imuLines_of_not_binocular _ _ hm]
  simp only [List.append_nil, List.filter_append]
  exact ⟨gazeLines_filter_of_none Line.isEyeCenter _ (fun _ _ _ _ => rfl),
    gazeLines_filter_of_none Line.isPupil _ (fun _ _ _ _ => rfl),
    gazeLines_filter_of_none Line.isImu _ (fun _ _ _ _ => rfl)⟩

/-- Concrete record for the C6 witness: all binocular-gated fields present
but the mask is not binocular. -/
def etW6 : EyeTrackingStreamData :=
  ⟨5, some (1/10, 2/10, 3/10, 4/10), some (1, 2, 3, 4, 5, 6), some (7, 8),
    some (1, 0, 0, 0), EyeMask.NOT_BINOCULAR⟩

theorem et_not_binocular_silent_witness :
    ((0 : ℚ) + 1 ≤ etW6.timestamp ∧ etW6.eye_center = some (1, 2, 3, 4, 5, 6) ∧
      etW6.eye_mask ≠ EyeMask.BINOCULAR) ∧
    ((handle_et_data 0 etW6).2.filter Line.isEyeCenter = [] ∧
      (handle_et_data 0 etW6).2.filter Line.isPupil = [] ∧
      (handle_et_data 0 etW6).2.filter Line.isImu = []) :=
  ⟨⟨by norm_num [etW6], rfl, by simp [etW6]⟩,
    et_not_binocular_silent 0 etW6 (1, 2, 3, 4, 5, 6)
      (by norm_num [etW6]) rfl (by simp [etW6])⟩

/-- C7: `_handle_events` with an event type other than blink, eye-closed or
eye-opened prints nothing and raises nothing, for any timestamp and any
extra arguments. -/
theorem events_unrecognized_silent (event_type : Events) (timestamp : String)
    (args : List String) (h1 : event_type ≠ Events.BLINK)
    (h2 : event_type ≠ Events.EYE_CLOSED)
    (h3 : event_type ≠ Events.EYE_OPENED) :
    handle_events event_type timestamp args = Except.ok [] := by
  cases event_type with
  | BLINK => exact absurd rfl h1
  | EYE_CLOSED => exact absurd rfl h2
  | EYE_OPENED => exact absurd rfl h3
  | OTHER => rfl

theorem events_unrecognized_silent_witness :
    (Events.OTHER ≠ Events.BLINK ∧ Events.OTHER ≠ Events.EYE_CLOSED ∧
      Events.OTHER ≠ Events.EYE_OPENED) ∧
    handle_events Events.OTHER "5" ["0.3"] = Except.ok [] :=
  ⟨⟨by decide, by decide, by decide⟩,
    events_unrecognized_silent Events.OTHER "5" ["0.3"]
      (by decide) (by decide) (by decide)⟩

/-- C8: a `KeyboardInterrupt` raised into the foreground sleep loop, after
any number of iterations, is caught by `main`'s `except` clause,
`frontend.shutdown()` runs exactly once, and the process exits with
code 0. -/
theorem main_interrupt_clean_exit (sleeps : ℕ) :
    (mainAfterConstruct sleeps PyExc.KeyboardInterrupt).1 = 1 ∧
    exitCodeOf (mainAfterConstruct sleeps PyExc.KeyboardInterrupt).2 = 0 :=
  ⟨rfl, rfl⟩

/-- C9: whenever a record passes the throttle, `_handle_et_data` stores its
timestamp before any field-presence check: a record with no gaze field and a
non-binocular mask (so every printable group is absent or gated off) still
sets `_last_console_print` to its timestamp while printing nothing, and a
following record less than 1 unit later is suppressed. -/
theorem et_state_only_timestamp (last : ℚ) (et et2 : EyeTrackingStreamData)
    (hts : last + 1 ≤ et.timestamp) (hg : et.gaze = none)
    (hm : et.eye_mask ≠ EyeMask.BINOCULAR)
    (h2 : et2.timestamp < et.timestamp + 1) :
    handle_et_data last et = (et.timestamp, []) ∧
    handle_et_data (handle_et_data last et).1 et2 = (et.timestamp, []) := by
  have h : handle_et_data last et = (et.timestamp, []) := by
    rw [handle_et_data_of_pass last et hts, hg,
      eyeCenterLines_of_not_binocular _ _ hm,
      pupilLines_of_not_binocular _ _ hm,
      imuLines_of_not_binocular _ _ hm]
    rfl
  refine ⟨h, ?_⟩
  rw [h]
  unfold handle_et_data
  rw [if_pos h2]

/-- Concrete records for the C9 witness: an all-gated record at timestamp 5
followed by a gaze-bearing record at timestamp 5.5. -/
def etW9a : EyeTrackingStreamData :=
  ⟨5, none, some (1, 2, 3, 4, 5, 6), some (7, 8), some (1, 0, 0, 0),
    EyeMask.NOT_BINOCULAR⟩

def etW9b : EyeTrackingStreamData :=
  ⟨11/2, some (1/10, 2/10, 3/10, 4/10), none, none, none, EyeMask.BINOCULAR⟩

theorem et_state_only_timestamp_witness :
    ((0 : ℚ) + 1 ≤ etW9a.timestamp ∧ etW9a.gaze = none ∧
      etW9a.eye_mask ≠ EyeMask.BINOCULAR ∧
      etW9b.timestamp < etW9a.timestamp + 1) ∧
    (handle_et_data 0 etW9a = (etW9a.timestamp, []) ∧
      handle_et_data (handle_et_data 0 etW9a).1 etW9b
        = (etW9a.timestamp, [])) :=
  ⟨⟨by norm_num [etW9a], rfl, by simp [etW9a], by norm_num [etW9a, etW9b]⟩,
    et_state_only_timestamp 0 etW9a etW9b (by norm_num [etW9a]) rfl
      (by simp [etW9a]) (by norm_num [etW9a, etW9b])⟩

/-- C10: for a recognized event type (blink, eye-closed or eye-opened),
`args[0]` is read: with an empty extra-argument tuple the handler raises
`IndexError`, and with at least one extra argument it returns normally. -/
theorem events_recognized_args_safety (event_type : Events)
    (timestamp a : String) (args : List String)
    (h : event_type ≠ Events.OTHER) :
    handle_events event_type timestamp [] = Except.error PyExc.IndexError ∧
    isOkE (handle_events event_type timestamp (a :: args)) = true := by
  cases event_type with
  | BLINK => exact ⟨rfl, rfl⟩
  | EYE_CLOSED => exact ⟨rfl, rfl⟩
  | EYE_OPENED => exact ⟨rfl, rfl⟩
  | OTHER => exact absurd rfl h

theorem events_recognized_args_safety_witness :
    Events.BLINK ≠ Events.OTHER ∧
    (handle_events Events.BLINK "5" [] = Except.error PyExc.IndexError ∧
      isOkE (handle_events Events.BLINK "5" ("0.3" :: [])) = true) :=
  ⟨by decide, events_recognized_args_safety Events.BLINK "5" "0.3" [] (by decide)⟩
